import Mathlib

/-!
Shallow embedding of `output-example/transaction_logging.py`
(class `TransactionLogger`) from the crewai-system-generator repository.

Modelling conventions
- Python dict payloads become association lists; dict keys may be strings
  or non-string hashables (ints suffice for the claims), values are an ADT
  covering JSON-encodable scalars (ints, strings) plus a `vOther`
  constructor standing for an arbitrary object that `json.dumps` rejects,
  carrying its `str()` rendering.
- The CPython `logging` registry (`logging.getLogger(name)` is keyed
  process-wide by name) is an association list from logger name to logger
  state.  A logger created fresh has level `NOTSET = 0` and no handlers.
  `propagate` is set to `False` by the constructor, so records never travel
  to ancestor loggers; the effective level of a logger whose own level is
  `NOTSET` is still inherited from the root logger (`WARNING = 30`).
- `uuid.uuid4().hex` is modelled by a monotone counter in the process
  state; all that matters is that each constructor call obtains a fresh
  identifier, hence a fresh default logger name.
- `os.path.abspath` is modelled as the identity on already-canonical path
  strings; the claims speak of paths that resolve to the same canonical
  absolute path, so those are represented by equal strings.
- `datetime.datetime.utcnow().isoformat() + "Z"` is modelled by a process
  clock: each `log` call stamps the current clock value and increments it.
- Writing through a `RotatingFileHandler` below its `maxBytes` threshold
  appends one line to the destination file; no claim exercises rollover
  (the default threshold is 10 MiB), so the files component is a plain
  append log per path.  The handler opens its file in append mode at
  construction, creating it empty when absent and preserving it otherwise.
- `json.loads` of the line produced by `json.dumps` on a sanitised entry
  returns structurally the same data (the stdlib round-trip guarantee for
  encodable values); a physical line therefore stores the structured data
  it encodes (`Line.jsonL`) or the plain-text rendering (`Line.textL`).
  A plain-text rendering `"[ts] LEVEL: {...}"` is never valid JSON (the
  bracketed timestamp is unquoted), so `json.loads` on it fails.
- Per-entry emission failures (the reason for `flush`'s `try/except`)
  are modelled by an oracle `ok : Entry → Bool` threaded through the
  operations, `true` meaning the emission of that entry succeeds.  The
  one deterministic failure — `_format_entry`'s outer `json.dumps`
  raising `TypeError` on a non-coercible transaction key, since `_safe`
  probes only values — is captured by `formatOk`; a faithful oracle never
  claims success for an entry whose formatting fails.  In the unbuffered
  path of `log` a failure propagates to the caller, exactly as in the
  source, where no handler guards the direct `self._emit(entry)` call, and
  there the formatting failure is checked explicitly.
-/

/-- Line format selected at construction: `fmt='json'` or `fmt='text'`. -/
inductive Fmt
  | json
  | text
  deriving DecidableEq, Repr

/-- A Python value stored in a transaction dict: a JSON-encodable integer,
a JSON-encodable string, or an arbitrary object `json.dumps` rejects,
carrying its textual (`str()`) rendering. -/
inductive Value
  | vInt (n : Int)
  | vStr (s : String)
  | vOther (r : String)
  deriving DecidableEq, Repr

/-- A Python dict key: a string; a non-string hashable that `json.dumps`
coerces to a textual object key (int stands for the int/float/bool/None
class); or a non-coercible hashable (a tuple, bytes, or arbitrary object)
on which `json.dumps` raises `TypeError: keys must be str, int, ...` —
carried with its textual repr for the plain-text rendering. -/
inductive JKey
  | strK (s : String)
  | intK (n : Int)
  | otherK (r : String)
  deriving DecidableEq, Repr

/-- A transaction dict: insertion-ordered association list. -/
abbrev Transaction := List (JKey × Value)

/-- The argument passed to `log`: either a dict or some other object
(carrying its textual rendering). -/
inductive Payload
  | mapping (t : Transaction)
  | notMapping (r : String)
  deriving DecidableEq, Repr

/-- The in-memory entry built by `log`:
`{"timestamp": ..., "level": ..., "transaction": ...}`. -/
structure Entry where
  timestamp : String
  level : String
  transaction : Transaction
  deriving DecidableEq, Repr

/-- One physical line of a destination file: either the JSON encoding of a
sanitised entry (string keys, `_safe`-converted values), or a plain-text
rendering. -/
inductive Line
  | jsonL (timestamp level : String) (transaction : List (String × Value))
  | textL (s : String)
  deriving DecidableEq, Repr

/-- What `query` hands to the predicate: the parsed entry dict, or the
fallback `{"raw": line}` wrapper. -/
inductive ParsedEntry
  | entry (timestamp level : String) (transaction : List (String × Value))
  | raw (s : String)
  deriving DecidableEq, Repr

/-- A handler attached to a logger.  In CPython's `logging` module,
`logging.handlers.RotatingFileHandler` derives from `logging.FileHandler`,
which derives from `logging.StreamHandler`: both constructors below
satisfy `isinstance(h, logging.StreamHandler)`, and only `rotating`
satisfies `isinstance(h, logging.handlers.RotatingFileHandler)`. -/
inductive Handler
  | rotating (path : String) (hlevel : Nat)
  | console (hlevel : Nat)
  deriving DecidableEq, Repr

/-- `isinstance(h, logging.StreamHandler)`: true for every handler the
engine ever attaches, because `RotatingFileHandler` is a `StreamHandler`
subclass. -/
def isStreamHandler : Handler → Bool
  | .rotating _ _ => true
  | .console _ => true

/-- `isinstance(h, logging.handlers.RotatingFileHandler)`. -/
def isRotating : Handler → Bool
  | .rotating _ _ => true
  | .console _ => false

/-- The state of one named logger in the process-wide registry. -/
structure LoggerState where
  llevel : Nat
  handlers : List Handler
  deriving DecidableEq, Repr

/-- Process-wide state: the `logging` registry, the filesystem restricted
to destination files, the uuid counter and the clock. -/
structure ProcState where
  loggers : List (String × LoggerState)
  files : List (String × List Line)
  nextId : Nat
  clock : Nat
  deriving DecidableEq, Repr

/-- The empty process: no loggers, no files. -/
def ProcState.empty : ProcState := ⟨[], [], 0, 0⟩

/-- Immutable per-instance configuration recorded by `__init__`. -/
structure LoggerInst where
  log_file : String
  fmt : Fmt
  buffer_size : Nat
  name : String
  deriving DecidableEq, Repr

/-- A `TransactionLogger` instance: its configuration and mutable buffer. -/
structure InstState where
  inst : LoggerInst
  buffer : List Entry
  deriving DecidableEq, Repr

/-- First-match association lookup (Python dict access at our key types). -/
def getAssoc {β : Type} : List (String × β) → String → Option β
  | [], _ => none
  | (k0, v) :: rest, k => if k0 = k then some v else getAssoc rest k

/-- Association update: replace the first binding of the key, or append. -/
def setAssoc {β : Type} : List (String × β) → String → β → List (String × β)
  | [], k, v => [(k, v)]
  | (k0, v0) :: rest, k, v =>
      if k0 = k then (k, v) :: rest else (k0, v0) :: setAssoc rest k v

/-- `logging.getLogger(name)`: the registered logger, or a fresh one with
level `NOTSET` and no handlers. -/
def getLoggerState (proc : ProcState) (name : String) : LoggerState :=
  (getAssoc proc.loggers name).getD ⟨0, []⟩

/-- Store a logger state back into the registry. -/
def putLogger (proc : ProcState) (name : String) (lg : LoggerState) : ProcState :=
  { proc with loggers := setAssoc proc.loggers name lg }

/-- Content of a destination file (absent and empty both read as no lines;
`query` returns `[]` in either case). -/
def fileLines (proc : ProcState) (path : String) : List Line :=
  (getAssoc proc.files path).getD []

/-- Append one written line to a destination file. -/
def appendLine (proc : ProcState) (path : String) (l : Line) : ProcState :=
  { proc with files := setAssoc proc.files path (fileLines proc path ++ [l]) }

/-- `str.upper()`. -/
def upper (s : String) : String := String.mk (s.data.map Char.toUpper)

/-- The integer-valued all-uppercase attributes of the `logging` module:
the known severity set reachable through `getattr(logging, name)`. -/
def levelTable : List (String × Nat) :=
  [("CRITICAL", 50), ("FATAL", 50), ("ERROR", 40), ("WARNING", 30),
   ("WARN", 30), ("INFO", 20), ("DEBUG", 10), ("NOTSET", 0)]

/-- `getattr(logging, s, None)` restricted to severity names.  (The only
other all-uppercase attribute of `logging`, `BASIC_FORMAT`, is a string;
feeding it to `Logger.setLevel` raises `ValueError` just as the `None`
branch does, so mapping it to `none` is observationally faithful.) -/
def getattrLevel (s : String) : Option Nat := getAssoc levelTable s

/-- `getattr(logging, s, logging.INFO)`. -/
def levelNumD (s : String) : Nat := (getattrLevel s).getD 20

/-- Whether a level name is in the known severity set (case-insensitive),
i.e. `getattr(logging, level.upper(), None)` yields a numeric level. -/
def knownSeverity (s : String) : Bool := (getattrLevel (upper s)).isSome

/-- `Logger.getEffectiveLevel()`: the logger's own level, or the root
logger's level (`WARNING = 30`) when it is `NOTSET`. -/
def effLevel (lg : LoggerState) : Nat := if lg.llevel = 0 then 30 else lg.llevel

/-- `json.dumps`-level key coercion: coercible non-string dict keys are
rendered as their textual form in the emitted JSON object.  For a
non-coercible key `json.dumps` raises instead of coercing; `formatOk`
below guards that path, so the `otherK` arm here is never the content of
a line the program actually writes. -/
def keyStr : JKey → String
  | .strK s => s
  | .intK n => toString n
  | .otherK r => r

/-- Whether `json.dumps` accepts this value as a dict key (`str`, `int`,
`float`, `bool`, `None` are coerced; anything else raises `TypeError`). -/
def keyCoercible : JKey → Bool
  | .strK _ => true
  | .intK _ => true
  | .otherK _ => false

/-- `_safe` from `_format_entry`: keep a JSON-encodable value, replace
anything else by its `str()` rendering. -/
def safeV : Value → Value
  | .vOther r => .vStr r
  | v => v

/-- A value `json.dumps` accepts unchanged (`_safe` is the identity). -/
def formatSafe : Value → Bool
  | .vOther _ => false
  | _ => true

/-- The transaction object embedded in the emitted JSON line:
`{k: _safe(v) for k, v in entry["transaction"].items()}` with `dumps`'s
key stringification. -/
def encodeTr (t : Transaction) : List (String × Value) :=
  t.map fun kv => (keyStr kv.1, safeV kv.2)

/-- Python `repr` of a transaction value as it appears inside `str(dict)`
(string values quoted; `vOther` rendered by its textual form). -/
def reprV : Value → String
  | .vInt n => toString n
  | .vStr s => String.singleton (Char.ofNat 39) ++ s ++ String.singleton (Char.ofNat 39)
  | .vOther r => r

/-- Python `repr` of a dict key inside `str(dict)`. -/
def reprK : JKey → String
  | .strK s => String.singleton (Char.ofNat 39) ++ s ++ String.singleton (Char.ofNat 39)
  | .intK n => toString n
  | .otherK r => r

/-- Python `str()` of a transaction dict. -/
def reprTr (t : Transaction) : String :=
  "\x7b" ++ String.intercalate ", " (t.map fun kv => reprK kv.1 ++ ": " ++ reprV kv.2) ++ "\x7d"

/-- Whether `_format_entry` succeeds on this entry.  `_safe` probes only
the values, so in JSON mode the outer `json.dumps` still raises
`TypeError` when some transaction key is not coercible; the plain-text
f-string rendering always succeeds at this value model.  `formatOk` and
`format_entry` together model the partial `_format_entry`: the former
tells whether it returns, the latter gives the line it returns then. -/
def formatOk (fmt : Fmt) (e : Entry) : Bool :=
  match fmt with
  | .json => e.transaction.all fun kv => keyCoercible kv.1
  | .text => true

/-- `_format_entry` on the success path (`formatOk` true): JSON mode
emits the compact encoding of the sanitised `{timestamp, level,
transaction}` object; text mode emits `"[timestamp] LEVEL:
str(transaction)"`. -/
def format_entry (fmt : Fmt) (e : Entry) : Line :=
  match fmt with
  | .json => .jsonL e.timestamp e.level (encodeTr e.transaction)
  | .text => .textL ("[" ++ e.timestamp ++ "] " ++ e.level ++ ": " ++ reprTr e.transaction)

/-- A compact textual rendering of a JSON line (used only to present a
physical line as raw text; escaping is irrelevant to every claim). -/
def lineToText : Line → String
  | .textL s => s
  | .jsonL ts lv tr =>
      "\x7b\"timestamp\":\"" ++ ts ++ "\",\"level\":\"" ++ lv ++ "\",\"transaction\":\x7b"
        ++ String.intercalate ","
            (tr.map fun kv => "\"" ++ kv.1 ++ "\":" ++ reprV kv.2)
        ++ "\x7d\x7d"

/-- Reading one persisted line back in `query`/`export`: in JSON mode a
JSON line parses to the entry it encodes and anything else degrades to
the `{"raw": line}` wrapper; in text mode every line is wrapped raw. -/
def parseLine : Fmt → Line → ParsedEntry
  | .json, .jsonL ts lv tr => .entry ts lv tr
  | .json, .textL s => .raw s
  | .text, l => .raw (lineToText l)

namespace TransactionLogger

/-- `TransactionLogger.__init__`: allocate the uuid, derive the logger
name by `logger_name or f"TransactionLogger-{uuid}"` — the `or` is a
Python truthiness test, so both `None` and the empty string fall back to
the uuid-unique default — fetch (or create) that logger from the
process-wide registry, set its level, and attach a new
`RotatingFileHandler` for the resolved destination unless that logger
already carries one for the same path. -/
def init (proc : ProcState) (log_file : String) (fmt : Fmt) (buffer_size : Nat)
    (level : String) (logger_name : Option String) : InstState × ProcState :=
  let id := proc.nextId
  let proc1 : ProcState := { proc with nextId := id + 1 }
  let name := match logger_name with
    | some n => if n = "" then "TransactionLogger-" ++ toString id else n
    | none => "TransactionLogger-" ++ toString id
  let lg0 := getLoggerState proc1 name
  let lg1 : LoggerState := { lg0 with llevel := levelNumD (upper level) }
  let isMatch : Handler → Bool := fun h => match h with
    | .rotating p _ => p = log_file
    | .console _ => false
  let inst : LoggerInst := ⟨log_file, fmt, buffer_size, name⟩
  if lg1.handlers.any isMatch then
    (⟨inst, []⟩, putLogger proc1 name lg1)
  else
    let lg2 : LoggerState := { lg1 with handlers := lg1.handlers ++ [.rotating log_file 0] }
    let files2 := if (getAssoc proc1.files log_file).isSome then proc1.files
                  else setAssoc proc1.files log_file []
    (⟨inst, []⟩, putLogger { proc1 with files := files2 } name lg2)

/-- `Logger.callHandlers` through the instance's sinks: each attached
handler whose level admits the record receives the formatted line; only
rotating handlers touch the filesystem. -/
def writeAll (files : List (String × List Line)) (hs : List Handler) (lvl : Nat)
    (l : Line) : List (String × List Line) :=
  hs.foldl (fun fs h =>
    match h with
    | .rotating p hl =>
        if hl ≤ lvl then setAssoc fs p ((getAssoc fs p).getD [] ++ [l]) else fs
    | .console _ => fs) files

/-- `_emit` on a successful emission: format the entry, derive the numeric
level (falling back to `INFO` for an unknown name), and hand the record to
`self._logger.log`, which drops it when the logger's effective level
exceeds it and otherwise dispatches to every admitting handler. -/
def emitProc (proc : ProcState) (inst : LoggerInst) (e : Entry) : ProcState :=
  let l := format_entry inst.fmt e
  let lvl := levelNumD e.level
  let lg := getLoggerState proc inst.name
  if effLevel lg ≤ lvl then
    { proc with files := writeAll proc.files lg.handlers lvl l }
  else proc

/-- `_emit` under the environment oracle: a failing emission raises
before anything is written, leaving the process state untouched.  The
oracle covers every way `_emit` can raise for an entry — the
deterministic `TypeError` from `_format_entry` on a non-coercible key as
well as environmental failures — so a faithful oracle never answers
`true` for an entry with `formatOk` false; `flush`'s per-entry
`try/except` is exactly this skip. -/
def emitE (ok : Entry → Bool) (proc : ProcState) (inst : LoggerInst) (e : Entry) :
    ProcState :=
  if ok e then emitProc proc inst e else proc

/-- `flush`: no-op on an empty buffer; otherwise emit every buffered entry
in insertion order, a per-entry failure skipping only that entry, then
clear the buffer. -/
def flush (ok : Entry → Bool) (st : InstState) (proc : ProcState) :
    InstState × ProcState :=
  if st.buffer.isEmpty then (st, proc)
  else
    let proc2 := st.buffer.foldl (fun p en => emitE ok p st.inst en) proc
    ({ st with buffer := [] }, proc2)

/-- Errors `log` can raise: the `TypeError` for a non-dict payload, or an
exception escaping the direct (unbuffered) `_emit` call — the `TypeError`
`json.dumps` raises on a non-coercible transaction key, or an
environmental failure. -/
inductive LogErr
  | invalidPayload
  | emitError
  deriving DecidableEq, Repr

/-- Build the entry `log` constructs: current timestamp, upper-cased
level, the payload itself. -/
def mkEntry (proc : ProcState) (t : Transaction) (level : String) : Entry :=
  ⟨toString proc.clock, upper level, t⟩

/-- Advance the timestamp clock. -/
def bumpClock (proc : ProcState) : ProcState := { proc with clock := proc.clock + 1 }

/-- `log(transaction, level="INFO")`: reject non-dict payloads; build the
stamped entry; with buffering enabled append it and flush as soon as the
buffer reaches `buffer_size`, otherwise emit immediately — in that
unbuffered path an emission failure propagates to the caller, whether it
is environmental (the oracle) or the deterministic `TypeError` that
`_format_entry` raises on a non-coercible transaction key. -/
def log (ok : Entry → Bool) (st : InstState) (proc : ProcState) (payload : Payload)
    (level : String) : Except LogErr (InstState × ProcState) :=
  match payload with
  | .notMapping _ => .error .invalidPayload
  | .mapping t =>
      let e := mkEntry proc t level
      let proc1 := bumpClock proc
      if 0 < st.inst.buffer_size then
        let st1 : InstState := { st with buffer := st.buffer ++ [e] }
        if st.inst.buffer_size ≤ st1.buffer.length then
          .ok (flush ok st1 proc1)
        else
          .ok (st1, proc1)
      else
        if ok e && formatOk st.inst.fmt e then .ok (st, emitProc proc1 st.inst e)
        else .error .emitError

/-- `clear_buffer`: discard buffered entries without emitting them. -/
def clear_buffer (st : InstState) : InstState := { st with buffer := [] }

/-- `query(predicate)`: flush, then read the destination file line by
line, parse each line per the configured format, and keep the entries the
predicate accepts; a predicate that raises (`none`) counts as non-match.
A missing file yields `[]`. -/
def query (ok : Entry → Bool) (pred : ParsedEntry → Option Bool)
    (st : InstState) (proc : ProcState) :
    List ParsedEntry × InstState × ProcState :=
  let fp := flush ok st proc
  let res := (fileLines fp.2 fp.1.inst.log_file).filterMap fun l =>
    let e := parseLine fp.1.inst.fmt l
    match pred e with
    | some true => some e
    | some false => none
    | none => none
  (res, fp.1, fp.2)

/-- The predicate `sum_field`/`avg_field` pass to `query`: the parsed
entry is a dict with a dict-valued `"transaction"` containing the field. -/
def hasField (field : String) : ParsedEntry → Option Bool
  | .entry _ _ tr => some (getAssoc tr field).isSome
  | .raw _ => some false

/-- Numeric value of a digit run. -/
def digitsVal (cs : List Char) : Nat :=
  cs.foldl (fun a c => 10 * a + (c.toNat - 48)) 0

/-- Python `float(v)` on a stored value: ints convert exactly; strings
convert when they spell a decimal number (surrounding whitespace, an
optional sign, digits with an optional single decimal point — exponents
and specials are irrelevant to the claims); other objects raise. -/
def toFloat? : Value → Option Rat
  | .vInt n => some (n : Rat)
  | .vStr s =>
      let cs0 := (s.data.dropWhile Char.isWhitespace).reverse.dropWhile Char.isWhitespace
      let cs1 := cs0.reverse
      let sb : Rat × List Char :=
        match cs1 with
        | c :: rest =>
            if c = Char.ofNat 45 then (-1, rest)
            else if c = Char.ofNat 43 then (1, rest)
            else (1, cs1)
        | [] => (1, [])
      let ip := sb.2.takeWhile fun c => c ≠ Char.ofNat 46
      let rest := sb.2.dropWhile fun c => c ≠ Char.ofNat 46
      match rest with
      | [] =>
          if ip ≠ [] ∧ ip.all Char.isDigit then some (sb.1 * (digitsVal ip : Rat))
          else none
      | _ :: fp =>
          if (ip ++ fp) ≠ [] ∧ ip.all Char.isDigit ∧ fp.all Char.isDigit ∧
              fp.all (fun c => c ≠ Char.ofNat 46) then
            some (sb.1 * (digitsVal (ip ++ fp) : Rat) / ((10 : Rat) ^ fp.length))
          else none
  | .vOther _ => none

/-- The numeric reading of `entry["transaction"][field]`, when the parsed
entry has the field and `float` accepts its value. -/
def numOf (field : String) : ParsedEntry → Option Rat
  | .entry _ _ tr =>
      match getAssoc tr field with
      | some v => toFloat? v
      | none => none
  | .raw _ => none

/-- `sum_field(field)`: query for entries carrying the field, then add up
the values `float` accepts, silently skipping the rest. -/
def sum_field (ok : Entry → Bool) (field : String) (st : InstState) (proc : ProcState) :
    Rat × InstState × ProcState :=
  let q := query ok (hasField field) st proc
  (q.1.foldl (fun acc e =>
      match numOf field e with
      | some x => acc + x
      | none => acc) 0, q.2)

/-- `avg_field(field)`: collect the numeric values of the field over the
same subset; `none` when there are no values, else their mean. -/
def avg_field (ok : Entry → Bool) (field : String) (st : InstState) (proc : ProcState) :
    Option Rat × InstState × ProcState :=
  let q := query ok (hasField field) st proc
  let values := q.1.filterMap (numOf field)
  (if values.isEmpty then none
   else some (values.foldl (· + ·) 0 / (values.length : Rat)), q.2)

/-- `enable_console(enable, level=None)`: attaching adds a
`StreamHandler` only when the logger has no handler satisfying
`isinstance(h, logging.StreamHandler)`; detaching removes (and closes)
every handler satisfying that test. -/
def enable_console (st : InstState) (proc : ProcState) (enable : Bool)
    (level : Option String) : ProcState :=
  let lg := getLoggerState proc st.inst.name
  if enable then
    if lg.handlers.any isStreamHandler then proc
    else
      let hl := match level with
        | some l => if l = "" then 0 else levelNumD (upper l)
        | none => 0
      putLogger proc st.inst.name { lg with handlers := lg.handlers ++ [.console hl] }
  else
    putLogger proc st.inst.name
      { lg with handlers := lg.handlers.filter fun h => ¬ isStreamHandler h }

/-- The `ValueError` raised by `set_level` on an unknown severity name. -/
inductive ConfigErr
  | unknownLevel
  deriving DecidableEq, Repr

/-- Set one handler's level. -/
def setHLevel (lvl : Nat) : Handler → Handler
  | .rotating p _ => .rotating p lvl
  | .console _ => .console lvl

/-- `set_level(level)`: reject names outside the known severity set, else
apply the numeric level to the logger and to every attached handler. -/
def set_level (st : InstState) (proc : ProcState) (level : String) :
    Except ConfigErr ProcState :=
  match getattrLevel (upper level) with
  | none => .error .unknownLevel
  | some lvl =>
      let lg := getLoggerState proc st.inst.name
      .ok (putLogger proc st.inst.name ⟨lvl, lg.handlers.map (setHLevel lvl)⟩)

end TransactionLogger

/-- The emission environment in which nothing fails. -/
def allOk : Entry → Bool := fun _ => true

/-- The match-all predicate (`lambda e: True`). -/
def matchAll : ParsedEntry → Option Bool := fun _ => some true

/-- Number of active rotating-file sinks for a path, across the whole
process registry. -/
def rotatingCountFor (proc : ProcState) (path : String) : Nat :=
  (proc.loggers.map fun nl =>
    (nl.2.handlers.filter fun h =>
      match h with
      | .rotating q _ => q = path
      | .console _ => false).length).foldl (· + ·) 0

/-- Number of console (pure `StreamHandler`) sinks attached to the given
instance's logger. -/
def consoleCountFor (proc : ProcState) (st : InstState) : Nat :=
  ((getLoggerState proc st.inst.name).handlers.filter fun h =>
    match h with
    | .rotating _ _ => false
    | .console _ => true).length

/-- Whether an `Except` result is a success. -/
def isOkE {ε α : Type} : Except ε α → Bool
  | .ok _ => true
  | .error _ => false

/-- Unwrap a successful `log` result (total, with an explicit default for
the error case; every use below is on a call proved successful). -/
def afterOk (r : Except TransactionLogger.LogErr (InstState × ProcState))
    (dflt : InstState × ProcState) : InstState × ProcState :=
  match r with
  | .ok sp => sp
  | .error _ => dflt

/-- The numeric level carried by a handler. -/
def hLevelOf : Handler → Nat
  | .rotating _ l => l
  | .console l => l

/-- The logger state `__init__` leaves behind for a fresh default
construction at severity `INFO`: level 20, one rotating handler at the
destination with handler level `NOTSET`. -/
def defaultSink (inst : LoggerInst) : LoggerState :=
  ⟨20, [Handler.rotating inst.log_file 0]⟩

/-- Every persisted line of the instance's destination file, decoded the
way `query` decodes it. -/
def parsedAll (inst : LoggerInst) (proc : ProcState) : List ParsedEntry :=
  (fileLines proc inst.log_file).map (parseLine inst.fmt)

/-- The numeric readings of a field over a list of decoded entries:
exactly the entries where the field is present and convertible. -/
def numericValuesOf (field : String) (es : List ParsedEntry) : List Rat :=
  es.filterMap (TransactionLogger.numOf field)

/-- The `log(T); flush(); query(match-all)` pipeline against a fresh
destination, at the given buffer size. -/
def roundTrip (T : Transaction) (bs : Nat) : List ParsedEntry :=
  let ip := TransactionLogger.init ProcState.empty "tx.log" Fmt.json bs "INFO" none
  match TransactionLogger.log allOk ip.1 ip.2 (.mapping T) "INFO" with
  | .error _ => []
  | .ok (st, p) =>
      let f := TransactionLogger.flush allOk st p
      (TransactionLogger.query allOk matchAll f.1 f.2).1

/-- Process state after constructing two logger instances with default
(uuid-derived) names against the same destination path. -/
def twoDefaultSamePath : ProcState :=
  (TransactionLogger.init
    (TransactionLogger.init ProcState.empty "app.log" Fmt.json 0 "INFO" none).2
    "app.log" Fmt.json 0 "INFO" none).2

-- Concrete scenario states used by the claim theorems below.

/-- Fresh default logger used by the console-detach scenario. -/
def c3S0 : InstState × ProcState :=
  TransactionLogger.init ProcState.empty "c3.log" Fmt.json 0 "INFO" none

/-- The process after `enable_console(False)` on that fresh logger. -/
def c3Detached : ProcState :=
  TransactionLogger.enable_console c3S0.1 c3S0.2 false none

/-- The state after a subsequent `log({"id": 1})` call. -/
def c3AfterLog : InstState × ProcState :=
  afterOk
    (TransactionLogger.log allOk c3S0.1 c3Detached
      (.mapping [(JKey.strK "id", Value.vInt 1)]) "INFO")
    (c3S0.1, c3Detached)

/-- Fresh default logger used by the console-attach scenario. -/
def c4S0 : InstState × ProcState :=
  TransactionLogger.init ProcState.empty "c4.log" Fmt.json 0 "INFO" none

/-- The process after `enable_console(True)` on that fresh logger. -/
def c4Attached : ProcState :=
  TransactionLogger.enable_console c4S0.1 c4S0.2 true none

/-- Fresh logger with `buffer_size = 2`. -/
def c6S0 : InstState × ProcState :=
  TransactionLogger.init ProcState.empty "c6.log" Fmt.json 2 "INFO" none

/-- After the first `log()`. -/
def c6S1 : InstState × ProcState :=
  afterOk
    (TransactionLogger.log allOk c6S0.1 c6S0.2
      (.mapping [(JKey.strK "a", Value.vInt 1)]) "INFO") c6S0

/-- After the second `log()`. -/
def c6S2 : InstState × ProcState :=
  afterOk
    (TransactionLogger.log allOk c6S1.1 c6S1.2
      (.mapping [(JKey.strK "b", Value.vInt 2)]) "INFO") c6S1

/-- A concrete instance with two buffered entries, used to exercise
`flush` directly. -/
def c7Inst : InstState :=
  ⟨⟨"c7.log", Fmt.json, 3, "L7"⟩,
   [⟨"5", "INFO", [(JKey.strK "a", Value.vInt 1)]⟩,
    ⟨"6", "INFO", [(JKey.strK "b", Value.vInt 2)]⟩]⟩

/-- The process hosting that instance: its logger in default shape, an
empty destination file. -/
def c7Proc : ProcState :=
  ⟨[("L7", ⟨20, [Handler.rotating "c7.log" 0]⟩)], [("c7.log", [])], 1, 7⟩

/-- An emission environment in which the entry stamped `"5"` fails. -/
def failOn5 : Entry → Bool := fun e => e.timestamp != "5"

/-- Fresh default logger for the statistics scenario. -/
def c8S0 : InstState × ProcState :=
  TransactionLogger.init ProcState.empty "c8.log" Fmt.json 0 "INFO" none

/-- After `log({"amount": 10})`. -/
def c8S1 : InstState × ProcState :=
  afterOk
    (TransactionLogger.log allOk c8S0.1 c8S0.2
      (.mapping [(JKey.strK "amount", Value.vInt 10)]) "INFO") c8S0

/-- After `log({"amount": 20})`. -/
def c8S2 : InstState × ProcState :=
  afterOk
    (TransactionLogger.log allOk c8S1.1 c8S1.2
      (.mapping [(JKey.strK "amount", Value.vInt 20)]) "INFO") c8S1

/-- After `log({"amount": "x"})`. -/
def c8S3 : InstState × ProcState :=
  afterOk
    (TransactionLogger.log allOk c8S2.1 c8S2.2
      (.mapping [(JKey.strK "amount", Value.vStr "x")]) "INFO") c8S2

/-- Fresh plain-text-format logger. -/
def ct0 : InstState × ProcState :=
  TransactionLogger.init ProcState.empty "ct.log" Fmt.text 0 "INFO" none

/-- After logging one transaction in plain-text mode. -/
def ct1 : InstState × ProcState :=
  afterOk
    (TransactionLogger.log allOk ct0.1 ct0.2
      (.mapping [(JKey.strK "amount", Value.vInt 10)]) "INFO") ct0

/-! ## Association-list and sanitisation lemmas -/

theorem getAssoc_setAssoc_self {β : Type} (xs : List (String × β)) (k : String) (v : β) :
    getAssoc (setAssoc xs k v) k = some v := by
  induction xs with
  | nil => simp [setAssoc, getAssoc]
  | cons hd tl ih =>
      obtain ⟨k0, v0⟩ := hd
      by_cases h : k0 = k
      · simp [setAssoc, h, getAssoc]
      · simp [setAssoc, h, getAssoc, ih]

theorem getAssoc_setAssoc_ne {β : Type} (xs : List (String × β)) (k k' : String) (v : β)
    (h : k' ≠ k) : getAssoc (setAssoc xs k v) k' = getAssoc xs k' := by
  have h2 : k ≠ k' := Ne.symm h
  induction xs with
  | nil => simp [setAssoc, getAssoc, h2]
  | cons hd tl ih =>
      obtain ⟨k0, v0⟩ := hd
      by_cases hk : k0 = k
      · subst hk
        simp [setAssoc, getAssoc, h2]
      · simp [setAssoc, hk, getAssoc, ih]

theorem safeV_eq_of_formatSafe (v : Value) (h : formatSafe v = true) : safeV v = v := by
  cases v <;> simp [formatSafe] at h ⊢ <;> rfl

theorem encodeTr_strK (T : List (String × Value)) (h : ∀ kv ∈ T, formatSafe kv.2 = true) :
    encodeTr (T.map fun kv => (JKey.strK kv.1, kv.2)) = T := by
  induction T with
  | nil => rfl
  | cons hd tl ih =>
      have h1 : formatSafe hd.2 = true := h hd (List.mem_cons_self hd tl)
      have h2 : ∀ kv ∈ tl, formatSafe kv.2 = true := fun kv hkv => h kv (List.mem_cons_of_mem hd hkv)
      calc encodeTr ((hd :: tl).map fun kv => (JKey.strK kv.1, kv.2))
          = (hd.1, safeV hd.2) :: encodeTr (tl.map fun kv => (JKey.strK kv.1, kv.2)) := rfl
        _ = (hd.1, hd.2) :: tl := by rw [safeV_eq_of_formatSafe hd.2 h1, ih h2]
        _ = hd :: tl := by simp

theorem all_keyCoercible_strK (T : List (String × Value)) :
    ((T.map fun kv => (JKey.strK kv.1, kv.2)).all fun kv => keyCoercible kv.1) = true := by
  induction T with
  | nil => rfl
  | cons hd tl ih =>
      simp only [List.map_cons, List.all_cons, ih, Bool.and_true]
      rfl

/-! ## Emission preserves the logger registry -/

theorem emitProc_loggers (proc : ProcState) (inst : LoggerInst) (e : Entry) :
    (TransactionLogger.emitProc proc inst e).loggers = proc.loggers := by
  simp only [TransactionLogger.emitProc]
  split <;> rfl

theorem emitE_loggers (ok : Entry → Bool) (proc : ProcState) (inst : LoggerInst) (e : Entry) :
    (TransactionLogger.emitE ok proc inst e).loggers = proc.loggers := by
  simp only [TransactionLogger.emitE]
  split
  · exact emitProc_loggers proc inst e
  · rfl

theorem getLoggerState_emitE (ok : Entry → Bool) (proc : ProcState) (inst : LoggerInst)
    (e : Entry) (n : String) :
    getLoggerState (TransactionLogger.emitE ok proc inst e) n = getLoggerState proc n := by
  simp [getLoggerState, emitE_loggers]

/-! ## Content of the destination file after emissions -/

theorem fileLines_emitE_default (ok : Entry → Bool) (proc : ProcState) (inst : LoggerInst)
    (e : Entry) (hlg : getLoggerState proc inst.name = defaultSink inst)
    (hlv : e.level = "INFO") :
    fileLines (TransactionLogger.emitE ok proc inst e) inst.log_file
      = fileLines proc inst.log_file
          ++ (if ok e then [format_entry inst.fmt e] else []) := by
  cases hok : ok e
  · simp [TransactionLogger.emitE, hok]
  · have h20 : levelNumD e.level = 20 := by rw [hlv]; decide
    simp [TransactionLogger.emitE, hok, TransactionLogger.emitProc, hlg, h20, effLevel,
      defaultSink, TransactionLogger.writeAll, fileLines, getAssoc_setAssoc_self]

theorem fileLines_emit_fold_default (ok : Entry → Bool) (inst : LoggerInst)
    (buf : List Entry) (proc : ProcState)
    (hlg : getLoggerState proc inst.name = defaultSink inst)
    (hlv : ∀ e ∈ buf, e.level = "INFO") :
    fileLines (buf.foldl (fun p en => TransactionLogger.emitE ok p inst en) proc)
        inst.log_file
      = fileLines proc inst.log_file
          ++ (buf.filter ok).map (format_entry inst.fmt) := by
  induction buf generalizing proc with
  | nil => simp
  | cons hd tl ih =>
      simp only [List.foldl_cons]
      rw [ih (TransactionLogger.emitE ok proc inst hd)
          (by rw [getLoggerState_emitE]; exact hlg)
          (fun e he => hlv e (List.mem_cons_of_mem hd he))]
      rw [fileLines_emitE_default ok proc inst hd hlg (hlv hd (List.mem_cons_self hd tl))]
      cases h : ok hd <;> simp [List.filter_cons, h]

/-! ## C1 — sink deduplication -/

/-- C1 (counterexample): the claim says at most one rotating-file sink is
ever active process-wide per resolved destination path.  Constructing two
logger instances with default (uuid-derived, hence distinct) logger names
against the same path leaves two rotating sinks active for that path: the
dedup check only inspects the handlers of the instance's own named logger,
and default names never collide. -/
theorem C1_counterexample : rotatingCountFor twoDefaultSamePath "app.log" = 2 := by decide

/-- C1 (amended): sink deduplication is keyed by logger name, not
process-wide by path — two instances constructed with the same nonempty
`logger_name` against the same path share one rotating sink, while both a
missing and an empty `logger_name` fall back (by Python truthiness at
`logger_name or f"TransactionLogger-{uuid}"`) to uuid-unique default
names, each instance then owning its own sink for the path; and in the
default-name scenario a `log()` call of a coercible-keyed dict through
either instance still appends exactly one physical line to the
destination file. -/
theorem C1_amended (p n : String) (t : Transaction) (hn : n ≠ "")
    (ht : (t.all fun kv => keyCoercible kv.1) = true) :
    rotatingCountFor
        (TransactionLogger.init
          (TransactionLogger.init ProcState.empty p Fmt.json 0 "INFO" (some n)).2
          p Fmt.json 0 "INFO" (some n)).2 p = 1
    ∧ rotatingCountFor
        (TransactionLogger.init
          (TransactionLogger.init ProcState.empty p Fmt.json 0 "INFO" (some "")).2
          p Fmt.json 0 "INFO" (some "")).2 p = 2
    ∧ (match TransactionLogger.log allOk
          (TransactionLogger.init ProcState.empty p Fmt.json 0 "INFO" none).1
          (TransactionLogger.init
            (TransactionLogger.init ProcState.empty p Fmt.json 0 "INFO" none).2
            p Fmt.json 0 "INFO" none).2 (.mapping t) "INFO" with
       | .ok (_, pr) => fileLines pr p
       | .error _ => [])
        = fileLines
            (TransactionLogger.init
              (TransactionLogger.init ProcState.empty p Fmt.json 0 "INFO" none).2
              p Fmt.json 0 "INFO" none).2 p
          ++ [format_entry Fmt.json
              (TransactionLogger.mkEntry
                (TransactionLogger.init
                  (TransactionLogger.init ProcState.empty p Fmt.json 0 "INFO" none).2
                  p Fmt.json 0 "INFO" none).2 t "INFO")]
    ∧ (match TransactionLogger.log allOk
          (TransactionLogger.init
            (TransactionLogger.init ProcState.empty p Fmt.json 0 "INFO" none).2
            p Fmt.json 0 "INFO" none).1
          (TransactionLogger.init
            (TransactionLogger.init ProcState.empty p Fmt.json 0 "INFO" none).2
            p Fmt.json 0 "INFO" none).2 (.mapping t) "INFO" with
       | .ok (_, pr) => fileLines pr p
       | .error _ => [])
        = fileLines
            (TransactionLogger.init
              (TransactionLogger.init ProcState.empty p Fmt.json 0 "INFO" none).2
              p Fmt.json 0 "INFO" none).2 p
          ++ [format_entry Fmt.json
              (TransactionLogger.mkEntry
                (TransactionLogger.init
                  (TransactionLogger.init ProcState.empty p Fmt.json 0 "INFO" none).2
                  p Fmt.json 0 "INFO" none).2 t "INFO")] := by
  have h20 : levelNumD (upper "INFO") = 20 := by decide
  have hne : ("TransactionLogger-" ++ toString (0:Nat)) ≠ ("TransactionLogger-" ++ toString (1:Nat)) := by decide
  have hne2 : ("TransactionLogger-" ++ toString (1:Nat)) ≠ ("TransactionLogger-" ++ toString (0:Nat)) := by decide
  have hinfo : upper "INFO" = "INFO" := by decide
  have hl : levelNumD "INFO" = 20 := by decide
  refine ⟨?_, ?_, ?_, ?_⟩ <;>
    simp [TransactionLogger.init, getLoggerState, getAssoc, setAssoc, putLogger,
          rotatingCountFor, h20, ProcState.empty, TransactionLogger.log,
          TransactionLogger.mkEntry, TransactionLogger.bumpClock, allOk, formatOk,
          TransactionLogger.emitE, TransactionLogger.emitProc, hne, hne2, hinfo, hl,
          hn, ht, effLevel, TransactionLogger.writeAll, fileLines]

/-- C1 witness: the amended statement at path `"app2.log"`, logger name
`"X"` and payload `{"id": 1}`. -/
theorem C1_amended_witness :
    (("X" : String) ≠ "")
    ∧ (([((JKey.strK "id" : JKey), Value.vInt 1)].all fun kv => keyCoercible kv.1) = true)
    ∧ (rotatingCountFor
        (TransactionLogger.init
          (TransactionLogger.init ProcState.empty "app2.log" Fmt.json 0 "INFO" (some "X")).2
          "app2.log" Fmt.json 0 "INFO" (some "X")).2 "app2.log" = 1
    ∧ rotatingCountFor
        (TransactionLogger.init
          (TransactionLogger.init ProcState.empty "app2.log" Fmt.json 0 "INFO" (some "")).2
          "app2.log" Fmt.json 0 "INFO" (some "")).2 "app2.log" = 2
    ∧ (match TransactionLogger.log allOk
          (TransactionLogger.init ProcState.empty "app2.log" Fmt.json 0 "INFO" none).1
          (TransactionLogger.init
            (TransactionLogger.init ProcState.empty "app2.log" Fmt.json 0 "INFO" none).2
            "app2.log" Fmt.json 0 "INFO" none).2
          (.mapping [(JKey.strK "id", Value.vInt 1)]) "INFO" with
       | .ok (_, pr) => fileLines pr "app2.log"
       | .error _ => [])
        = fileLines
            (TransactionLogger.init
              (TransactionLogger.init ProcState.empty "app2.log" Fmt.json 0 "INFO" none).2
              "app2.log" Fmt.json 0 "INFO" none).2 "app2.log"
          ++ [format_entry Fmt.json
              (TransactionLogger.mkEntry
                (TransactionLogger.init
                  (TransactionLogger.init ProcState.empty "app2.log" Fmt.json 0 "INFO" none).2
                  "app2.log" Fmt.json 0 "INFO" none).2
                [(JKey.strK "id", Value.vInt 1)] "INFO")]
    ∧ (match TransactionLogger.log allOk
          (TransactionLogger.init
            (TransactionLogger.init ProcState.empty "app2.log" Fmt.json 0 "INFO" none).2
            "app2.log" Fmt.json 0 "INFO" none).1
          (TransactionLogger.init
            (TransactionLogger.init ProcState.empty "app2.log" Fmt.json 0 "INFO" none).2
            "app2.log" Fmt.json 0 "INFO" none).2
          (.mapping [(JKey.strK "id", Value.vInt 1)]) "INFO" with
       | .ok (_, pr) => fileLines pr "app2.log"
       | .error _ => [])
        = fileLines
            (TransactionLogger.init
              (TransactionLogger.init ProcState.empty "app2.log" Fmt.json 0 "INFO" none).2
              "app2.log" Fmt.json 0 "INFO" none).2 "app2.log"
          ++ [format_entry Fmt.json
              (TransactionLogger.mkEntry
                (TransactionLogger.init
                  (TransactionLogger.init ProcState.empty "app2.log" Fmt.json 0 "INFO" none).2
                  "app2.log" Fmt.json 0 "INFO" none).2
                [(JKey.strK "id", Value.vInt 1)] "INFO")]) :=
  ⟨by decide, by decide,
   C1_amended "app2.log" "X" [(JKey.strK "id", Value.vInt 1)] (by decide) (by decide)⟩

/-! ## C3 — console detach is not frame-preserving -/

/-- C3 (code behaviour at the failing input): after `enable_console(False)`
on a freshly constructed logger, the rotating-file sink is gone too (the
handler list is empty, because `RotatingFileHandler` passes the
`isinstance(h, StreamHandler)` test used to select handlers to detach),
and a subsequent `log({"id": 1})` leaves the destination file empty
instead of persisting the entry.  This contradicts the claim that only
console-mirror sinks are detached. -/
theorem C3_console_detach_closes_file_sink :
    (getLoggerState c3Detached c3S0.1.inst.name).handlers = []
    ∧ fileLines c3AfterLog.2 "c3.log" = []
    ∧ isOkE (TransactionLogger.log allOk c3S0.1 c3Detached
        (.mapping [(JKey.strK "id", Value.vInt 1)]) "INFO") = true := by decide

/-! ## C4 — console attach is a no-op -/

/-- C4 (code behaviour at the failing input): `enable_console(True)` on a
freshly constructed logger attaches nothing — zero console sinks are
present afterwards and the handler list is exactly the original rotating
handler — because the always-present `RotatingFileHandler` already
satisfies `isinstance(h, StreamHandler)`, so the guard that should only
prevent a second console handler prevents the first as well.  This
contradicts the claim that exactly one console-mirror sink is attached. -/
theorem C4_console_attach_is_noop :
    consoleCountFor c4Attached c4S0.1 = 0
    ∧ (getLoggerState c4Attached c4S0.1.inst.name).handlers
        = [Handler.rotating "c4.log" 0] := by decide

/-! ## C5 — payload validation -/

/-- C6: with buffering enabled, `log` only appends to the buffer (writing
nothing to any file) while the buffer stays below `buffer_size`, and the
call that makes the buffer reach `buffer_size` flushes synchronously;
concretely, with `buffer_size = 2` the destination file holds 0 entries
after the first `log()` (buffer length 1) and 2 entries after the second
(buffer empty). -/
theorem C6_buffer_threshold (ok : Entry → Bool) (st : InstState) (proc : ProcState)
    (t : Transaction) (lvl : String) (hbs : 0 < st.inst.buffer_size) :
    (st.buffer.length + 1 < st.inst.buffer_size →
      TransactionLogger.log ok st proc (.mapping t) lvl
        = .ok ({ st with buffer := st.buffer ++ [TransactionLogger.mkEntry proc t lvl] },
               TransactionLogger.bumpClock proc))
    ∧ (st.inst.buffer_size ≤ st.buffer.length + 1 →
      TransactionLogger.log ok st proc (.mapping t) lvl
        = .ok (TransactionLogger.flush ok
            { st with buffer := st.buffer ++ [TransactionLogger.mkEntry proc t lvl] }
            (TransactionLogger.bumpClock proc)))
    ∧ (fileLines c6S1.2 "c6.log").length = 0
    ∧ c6S1.1.buffer.length = 1
    ∧ (fileLines c6S2.2 "c6.log").length = 2
    ∧ c6S2.1.buffer.length = 0 := by
  refine ⟨?_, ?_, by decide, by decide, by decide, by decide⟩
  · intro h
    have h2 : ¬ (st.inst.buffer_size ≤ st.buffer.length + 1) := Nat.not_le.mpr h
    simp [TransactionLogger.log, hbs, h2]
  · intro h
    simp [TransactionLogger.log, hbs, h]

/-- C6 witness: the theorem at the fresh `buffer_size = 2` logger and the
payload `{"a": 1}` (the below-threshold branch applies: the buffer is
empty and 1 < 2). -/
theorem C6_witness :
    (c6S0.1.buffer.length + 1 < c6S0.1.inst.buffer_size →
      TransactionLogger.log allOk c6S0.1 c6S0.2
          (.mapping [(JKey.strK "a", Value.vInt 1)]) "INFO"
        = .ok ({ c6S0.1 with
                  buffer := c6S0.1.buffer
                    ++ [TransactionLogger.mkEntry c6S0.2 [(JKey.strK "a", Value.vInt 1)] "INFO"] },
               TransactionLogger.bumpClock c6S0.2))
    ∧ (c6S0.1.inst.buffer_size ≤ c6S0.1.buffer.length + 1 →
      TransactionLogger.log allOk c6S0.1 c6S0.2
          (.mapping [(JKey.strK "a", Value.vInt 1)]) "INFO"
        = .ok (TransactionLogger.flush allOk
            { c6S0.1 with
                buffer := c6S0.1.buffer
                  ++ [TransactionLogger.mkEntry c6S0.2 [(JKey.strK "a", Value.vInt 1)] "INFO"] }
            (TransactionLogger.bumpClock c6S0.2)))
    ∧ (fileLines c6S1.2 "c6.log").length = 0
    ∧ c6S1.1.buffer.length = 1
    ∧ (fileLines c6S2.2 "c6.log").length = 2
    ∧ c6S2.1.buffer.length = 0 :=
  C6_buffer_threshold allOk c6S0.1 c6S0.2 [(JKey.strK "a", Value.vInt 1)] "INFO" (by decide)

/-! ## C7 — flush semantics -/

/-- C7: for every buffer state of a logger whose registry entry is in the
default single-rotating-sink shape and whose buffered entries are `INFO`
ones, `flush` is a no-op on an empty buffer, leaves the buffer empty,
processes the buffered entries in FIFO order by the per-entry emission
fold (so one entry's failure cannot abort the others), and appends to the
destination file exactly the formatted lines of the entries whose emission
succeeded, in order. -/
theorem C7_flush_best_effort (ok : Entry → Bool) (st : InstState) (proc : ProcState)
    (hlg : getLoggerState proc st.inst.name = defaultSink st.inst)
    (hlv : ∀ e ∈ st.buffer, e.level = "INFO") :
    (st.buffer = [] → TransactionLogger.flush ok st proc = (st, proc))
    ∧ (TransactionLogger.flush ok st proc).1.buffer = []
    ∧ (TransactionLogger.flush ok st proc).2
        = st.buffer.foldl (fun p e => TransactionLogger.emitE ok p st.inst e) proc
    ∧ fileLines (TransactionLogger.flush ok st proc).2 st.inst.log_file
        = fileLines proc st.inst.log_file
            ++ (st.buffer.filter ok).map (format_entry st.inst.fmt) := by
  refine ⟨?_, ?_, ?_, ?_⟩
  · intro h
    simp [TransactionLogger.flush, h]
  · simp only [TransactionLogger.flush]
    split
    · simp_all [List.isEmpty_iff]
    · rfl
  · simp only [TransactionLogger.flush]
    split
    · rename_i h
      rw [List.isEmpty_iff] at h
      simp [h]
    · rfl
  · have hfold := fileLines_emit_fold_default ok st.inst st.buffer proc hlg hlv
    by_cases hemp : st.buffer.isEmpty = true
    · have hbe : st.buffer = [] := by rwa [List.isEmpty_iff] at hemp
      simp [TransactionLogger.flush, hemp, hbe]
    · simp only [TransactionLogger.flush, hemp, Bool.false_eq_true, if_false]
      exact hfold

/-- C7 witness: the theorem on a concrete instance with two buffered INFO
entries, in an environment where the first entry's emission fails — the
second entry is still persisted. -/
theorem C7_witness :
    (c7Inst.buffer = [] → TransactionLogger.flush failOn5 c7Inst c7Proc = (c7Inst, c7Proc))
    ∧ (TransactionLogger.flush failOn5 c7Inst c7Proc).1.buffer = []
    ∧ (TransactionLogger.flush failOn5 c7Inst c7Proc).2
        = c7Inst.buffer.foldl (fun p e => TransactionLogger.emitE failOn5 p c7Inst.inst e) c7Proc
    ∧ fileLines (TransactionLogger.flush failOn5 c7Inst c7Proc).2 c7Inst.inst.log_file
        = fileLines c7Proc c7Inst.inst.log_file
            ++ (c7Inst.buffer.filter failOn5).map (format_entry c7Inst.inst.fmt) :=
  C7_flush_best_effort failOn5 c7Inst c7Proc (by decide) (by decide)

/-! ## C2 — round trip -/

/-- C2: for every format-safe string-keyed mapping `T` logged at any
buffer size against a fresh destination, the pipeline
`log(T); flush(); query(match-all)` returns exactly one entry, and that
entry's transaction equals `T`. -/
theorem C2_round_trip (T : List (String × Value)) (bs : Nat)
    (hT : ∀ kv ∈ T, formatSafe kv.2 = true) :
    roundTrip (T.map fun kv => (JKey.strK kv.1, kv.2)) bs
      = [ParsedEntry.entry "0" "INFO" T] := by
  have hup : upper "INFO" = "INFO" := by decide
  have hl : levelNumD "INFO" = 20 := by decide
  have h20 : levelNumD (upper "INFO") = 20 := by decide
  have ht0 : toString (0:Nat) = "0" := by decide
  have henc := encodeTr_strK T hT
  have hco : (((T.map fun kv => (JKey.strK kv.1, kv.2))).all fun kv => keyCoercible kv.1) = true :=
    all_keyCoercible_strK T
  rcases bs with _ | _ | bs <;>
    simp [roundTrip, TransactionLogger.init, TransactionLogger.log, TransactionLogger.flush,
      TransactionLogger.query, TransactionLogger.mkEntry, TransactionLogger.bumpClock,
      TransactionLogger.emitE, TransactionLogger.emitProc, allOk, matchAll, getLoggerState,
      getAssoc, setAssoc, putLogger, fileLines, effLevel, TransactionLogger.writeAll,
      format_entry, formatOk, hco, parseLine, ProcState.empty, hup, hl, h20, ht0, henc]

/-- C2 witness: the round trip at `T = [("id", 1)]`, `buffer_size = 0`. -/
theorem C2_round_trip_witness :
    roundTrip ([(("id" : String), Value.vInt 1)].map fun kv => (JKey.strK kv.1, kv.2)) 0
      = [ParsedEntry.entry "0" "INFO" [(("id" : String), Value.vInt 1)]] :=
  C2_round_trip [(("id" : String), Value.vInt 1)] 0 (by decide)

/-! ## Further helper lemmas -/

theorem getLoggerState_putLogger (proc : ProcState) (n : String) (lg : LoggerState) :
    getLoggerState (putLogger proc n lg) n = lg := by
  simp [getLoggerState, putLogger, getAssoc_setAssoc_self]

theorem hLevelOf_setHLevel (lvl : Nat) (h : Handler) :
    hLevelOf (TransactionLogger.setHLevel lvl h) = lvl := by
  cases h <;> rfl

theorem parseLine_text (l : Line) : parseLine Fmt.text l = .raw (lineToText l) := by
  cases l <;> rfl

theorem flush_fst_inst (ok : Entry → Bool) (st : InstState) (proc : ProcState) :
    (TransactionLogger.flush ok st proc).1.inst = st.inst := by
  simp only [TransactionLogger.flush]
  split <;> rfl

theorem foldl_numOf_eq_sum (field : String) (es : List ParsedEntry) : ∀ a : Rat,
    es.foldl (fun acc e => match TransactionLogger.numOf field e with
      | some x => acc + x
      | none => acc) a
      = a + (es.filterMap (TransactionLogger.numOf field)).sum := by
  induction es with
  | nil => intro a; simp
  | cons hd tl ih =>
      intro a
      cases h : TransactionLogger.numOf field hd <;>
        simp [List.filterMap_cons, h, ih, add_assoc]

theorem foldl_add_eq_sum (xs : List Rat) : ∀ a : Rat,
    xs.foldl (· + ·) a = a + xs.sum := by
  induction xs with
  | nil => intro a; simp
  | cons hd tl ih => intro a; simp [ih, add_assoc]

theorem filterMap_numOf_query (fmt : Fmt) (field : String) (L : List Line) :
    ((L.filterMap fun l =>
        match TransactionLogger.hasField field (parseLine fmt l) with
        | some true => some (parseLine fmt l)
        | some false => none
        | none => none)).filterMap (TransactionLogger.numOf field)
      = (L.map (parseLine fmt)).filterMap (TransactionLogger.numOf field) := by
  have hpt : ∀ l : Line,
      (match TransactionLogger.hasField field (parseLine fmt l) with
        | some true => some (parseLine fmt l)
        | some false => none
        | none => none).bind (TransactionLogger.numOf field)
        = TransactionLogger.numOf field (parseLine fmt l) := by
    intro l
    cases he : parseLine fmt l with
    | raw s => simp [TransactionLogger.hasField, TransactionLogger.numOf]
    | entry ts lv tr =>
        cases hv : getAssoc tr field with
        | none => simp [TransactionLogger.hasField, hv, TransactionLogger.numOf]
        | some v => simp [TransactionLogger.hasField, hv]
  rw [List.filterMap_filterMap, List.filterMap_map]
  simp only [hpt]
  rfl

/-! ## C9 — set_level validation and propagation -/

/-- C9: `set_level` fails exactly when the level name is outside the known
severity set (the case-insensitive names the `logging` module maps to
numeric levels); for every known name it succeeds, the instance's logger
carries the new numeric threshold, and every attached sink carries it too
(the handler list is the old one with each handler's level replaced). -/
theorem C9_set_level (st : InstState) (proc : ProcState) (level : String) :
    ((∃ e, TransactionLogger.set_level st proc level = .error e)
        ↔ knownSeverity level = false)
    ∧ (∀ lvl, getattrLevel (upper level) = some lvl →
        ∃ proc2, TransactionLogger.set_level st proc level = .ok proc2
          ∧ (getLoggerState proc2 st.inst.name).llevel = lvl
          ∧ (getLoggerState proc2 st.inst.name).handlers
              = (getLoggerState proc st.inst.name).handlers.map
                  (TransactionLogger.setHLevel lvl)
          ∧ ∀ h ∈ (getLoggerState proc2 st.inst.name).handlers, hLevelOf h = lvl) := by
  constructor
  · cases hx : getattrLevel (upper level)
    · simp [TransactionLogger.set_level, knownSeverity, hx]
      exact ⟨TransactionLogger.ConfigErr.unknownLevel, trivial⟩
    · simp [TransactionLogger.set_level, knownSeverity, hx]
  · intro lvl hlvl
    refine ⟨putLogger proc st.inst.name
        ⟨lvl, (getLoggerState proc st.inst.name).handlers.map (TransactionLogger.setHLevel lvl)⟩,
      ?_, ?_, ?_, ?_⟩
    · simp [TransactionLogger.set_level, hlvl]
    · simp [TransactionLogger.set_level, hlvl, getLoggerState_putLogger]
    · simp [TransactionLogger.set_level, hlvl, getLoggerState_putLogger]
    · simp only [TransactionLogger.set_level, hlvl, getLoggerState_putLogger]
      intro h hm
      rw [List.mem_map] at hm
      obtain ⟨h0, _, rfl⟩ := hm
      exact hLevelOf_setHLevel lvl h0

/-- C9 witness: `set_level("warning")` on a fresh logger — "warning" is a
known severity, so the error case is empty and the success case applies at
the numeric level 30. -/
theorem C9_witness :
    ((∃ e, TransactionLogger.set_level c6S0.1 c6S0.2 "warning" = .error e)
        ↔ knownSeverity "warning" = false)
    ∧ (∀ lvl, getattrLevel (upper "warning") = some lvl →
        ∃ proc2, TransactionLogger.set_level c6S0.1 c6S0.2 "warning" = .ok proc2
          ∧ (getLoggerState proc2 c6S0.1.inst.name).llevel = lvl
          ∧ (getLoggerState proc2 c6S0.1.inst.name).handlers
              = (getLoggerState c6S0.2 c6S0.1.inst.name).handlers.map
                  (TransactionLogger.setHLevel lvl)
          ∧ ∀ h ∈ (getLoggerState proc2 c6S0.1.inst.name).handlers, hLevelOf h = lvl) :=
  C9_set_level c6S0.1 c6S0.2 "warning"

/-! ## C10 — plain-text mode never decodes -/

/-- C10: when the configured line format is plain text, `query` returns
every accepted entry as a raw wrapper (it never reconstructs a
`{timestamp, level, transaction}` entry), and consequently `sum_field`
returns 0.0 and `avg_field` returns the no-value result, regardless of
what was logged. -/
theorem C10_text_mode (ok : Entry → Bool) (st : InstState) (proc : ProcState)
    (pred : ParsedEntry → Option Bool) (field : String) (hfmt : st.inst.fmt = .text) :
    (∀ e ∈ (TransactionLogger.query ok pred st proc).1, ∃ s, e = .raw s)
    ∧ (TransactionLogger.sum_field ok field st proc).1 = 0
    ∧ (TransactionLogger.avg_field ok field st proc).1 = none := by
  have hinst : (TransactionLogger.flush ok st proc).1.inst = st.inst :=
    flush_fst_inst ok st proc
  have hq : ∀ field2,
      (TransactionLogger.query ok (TransactionLogger.hasField field2) st proc).1 = [] := by
    intro field2
    simp only [TransactionLogger.query, hinst, hfmt]
    rw [List.filterMap_eq_nil_iff]
    intro l hl
    rw [parseLine_text]
    rfl
  refine ⟨?_, ?_, ?_⟩
  · intro e he
    simp only [TransactionLogger.query, hinst, hfmt] at he
    rw [List.mem_filterMap] at he
    obtain ⟨l, _, hl⟩ := he
    rw [parseLine_text] at hl
    split at hl
    · rw [Option.some_inj] at hl
      exact ⟨lineToText l, hl.symm⟩
    · exact absurd hl (by simp)
    · exact absurd hl (by simp)
  · simp [TransactionLogger.sum_field, hq field]
  · simp [TransactionLogger.avg_field, hq field]

/-- C10 witness: the theorem on a plain-text logger that has logged
`{"amount": 10}` — the query result is raw-wrapped, the sum is 0 and the
average is the no-value result. -/
theorem C10_witness :
    (∀ e ∈ (TransactionLogger.query allOk matchAll ct1.1 ct1.2).1, ∃ s, e = .raw s)
    ∧ (TransactionLogger.sum_field allOk "amount" ct1.1 ct1.2).1 = 0
    ∧ (TransactionLogger.avg_field allOk "amount" ct1.1 ct1.2).1 = none :=
  C10_text_mode allOk ct1.1 ct1.2 matchAll "amount" (by decide)

/-! ## C8 — field statistics -/

/-- C8: `sum_field` equals the sum of the numeric readings of the field
over exactly those persisted entries where the field is present and
convertible (absent and non-numeric values are skipped), `avg_field` is
the mean over that same subset and the no-value result when the subset is
empty; concretely, after logging `{amount: 10}`, `{amount: 20}` and
`{amount: "x"}`, the sum is 30 and the average is 15. -/
theorem C8_stats (ok : Entry → Bool) (field : String) (st : InstState) (proc : ProcState) :
    (TransactionLogger.sum_field ok field st proc).1
      = (numericValuesOf field (parsedAll st.inst (TransactionLogger.flush ok st proc).2)).sum
    ∧ ((TransactionLogger.avg_field ok field st proc).1
        = if numericValuesOf field (parsedAll st.inst (TransactionLogger.flush ok st proc).2) = []
          then none
          else some
            ((numericValuesOf field (parsedAll st.inst (TransactionLogger.flush ok st proc).2)).sum
              / ((numericValuesOf field
                  (parsedAll st.inst (TransactionLogger.flush ok st proc).2)).length : Rat)))
    ∧ (TransactionLogger.sum_field allOk "amount" c8S3.1 c8S3.2).1 = 30
    ∧ (TransactionLogger.avg_field allOk "amount" c8S3.1 c8S3.2).1 = some 15 := by
  have hinst := flush_fst_inst ok st proc
  have hq : (TransactionLogger.query ok (TransactionLogger.hasField field) st proc).1
      = (fileLines (TransactionLogger.flush ok st proc).2 st.inst.log_file).filterMap
          (fun l => match TransactionLogger.hasField field (parseLine st.inst.fmt l) with
            | some true => some (parseLine st.inst.fmt l)
            | some false => none
            | none => none) := by
    simp only [TransactionLogger.query, hinst]
  have hqc : (TransactionLogger.query allOk (TransactionLogger.hasField "amount") c8S3.1 c8S3.2).1
      = [ParsedEntry.entry "0" "INFO" [("amount", Value.vInt 10)],
         ParsedEntry.entry "1" "INFO" [("amount", Value.vInt 20)],
         ParsedEntry.entry "2" "INFO" [("amount", Value.vStr "x")]] := by decide
  have e10 : TransactionLogger.numOf "amount"
      (ParsedEntry.entry "0" "INFO" [("amount", Value.vInt 10)]) = some ((10:Int) : Rat) := rfl
  have e20 : TransactionLogger.numOf "amount"
      (ParsedEntry.entry "1" "INFO" [("amount", Value.vInt 20)]) = some ((20:Int) : Rat) := rfl
  have ex : TransactionLogger.numOf "amount"
      (ParsedEntry.entry "2" "INFO" [("amount", Value.vStr "x")]) = none := by decide
  refine ⟨?_, ?_, ?_, ?_⟩
  · simp only [TransactionLogger.sum_field]
    rw [hq, foldl_numOf_eq_sum, filterMap_numOf_query]
    simp [numericValuesOf, parsedAll]
  · simp only [TransactionLogger.avg_field]
    rw [hq, filterMap_numOf_query]
    simp only [numericValuesOf, parsedAll, List.isEmpty_iff, foldl_add_eq_sum, zero_add]
  · simp only [TransactionLogger.sum_field, hqc, List.foldl_cons, List.foldl_nil, e10, e20, ex]
    norm_num
  · simp only [TransactionLogger.avg_field, hqc, List.filterMap_cons, List.filterMap_nil,
      e10, e20, ex]
    norm_num [List.isEmpty]

/-- C8 witness: the theorem at the concrete three-entry scenario state. -/
theorem C8_stats_witness :
    (TransactionLogger.sum_field allOk "amount" c8S3.1 c8S3.2).1
      = (numericValuesOf "amount"
          (parsedAll c8S3.1.inst (TransactionLogger.flush allOk c8S3.1 c8S3.2).2)).sum
    ∧ ((TransactionLogger.avg_field allOk "amount" c8S3.1 c8S3.2).1
        = if numericValuesOf "amount"
              (parsedAll c8S3.1.inst (TransactionLogger.flush allOk c8S3.1 c8S3.2).2) = []
          then none
          else some
            ((numericValuesOf "amount"
                (parsedAll c8S3.1.inst (TransactionLogger.flush allOk c8S3.1 c8S3.2).2)).sum
              / ((numericValuesOf "amount"
                  (parsedAll c8S3.1.inst (TransactionLogger.flush allOk c8S3.1 c8S3.2).2)).length : Rat)))
    ∧ (TransactionLogger.sum_field allOk "amount" c8S3.1 c8S3.2).1 = 30
    ∧ (TransactionLogger.avg_field allOk "amount" c8S3.1 c8S3.2).1 = some 15 :=
  C8_stats allOk "amount" c8S3.1 c8S3.2
